import Mathlib

/-!
Shallow embedding of ryao18/ledmatrix (the "fact" variant in
src/examples-api-use/testing.cc and the plain dual-image variant in
src/unnamed/part_000), together with theorems settling the frozen claims
about its render scheduling and content-refresh behaviour.
-/

/-! ## Layout constants (fact variant, testing.cc lines 393-404) -/

def MATRIX_WIDTH : Int := 64

def MATRIX_HEIGHT : Nat := 32

def IMAGE_HEIGHT : Nat := 21

def IMAGE_Y : Nat := 1

/-! ## Strings used by the content-refresh subsystem (testing.cc) -/

/-- The success mark checked by `FetchFactWithRetry`
(testing.cc line 526: `fact.rfind("Today's fact:", 0) == 0`). -/
def successMark : String := "Today\x27s fact:"

/-- Sentinel returned by `FetchOrLoadFactOfTheDay` when CURL fails
(testing.cc lines 454 and 470 both produce variants; line 470). -/
def curlFailSentinel : String := "Could not fetch today\x27s fact"

/-- Sentinel returned on JSON parse failure (testing.cc line 481). -/
def parseFailSentinel : String := "Error parsing today\x27s fact"

/-- Sentinel returned when the "text" field is absent (testing.cc line 485). -/
def missingFieldSentinel : String := "Today\x27s fact not found in response"

/-- Sentinel returned by `FetchFactWithRetry` after exhausting all attempts
(testing.cc line 534). -/
def retrySentinel : String := "Could not fetch fact after retries"

def emptyStr : String := ""

/-- Models `fact.rfind("Today's fact:", 0) == 0`: the text begins with the
success mark. -/
def factHasMark (s : String) : Bool := successMark.data.isPrefixOf s.data

/-! ## FetchFactWithRetry (testing.cc lines 523-535)

The underlying `FetchOrLoadFactOfTheDay` call is modelled by a function
`fetch : Nat → String` giving the text produced by each (1-based) attempt.
The result pairs the returned string with the number of fetch attempts
actually performed. -/

def fetchRetryGo (fetch : Nat → String) : Nat → Nat → String × Nat
  | _, 0 => (retrySentinel, 0)
  | attempt, remaining + 1 =>
    let fact := fetch attempt
    if factHasMark fact then (fact, 1)
    else
      let r := fetchRetryGo fetch (attempt + 1) remaining
      (r.1, r.2 + 1)

/-- `FetchFactWithRetry(max_retries)`: attempts run 1, 2, ..., max_retries;
a result bearing the success mark is returned immediately, otherwise the
loop retries and finally yields `retrySentinel`. -/
def FetchFactWithRetry (fetch : Nat → String) (max_retries : Nat) : String × Nat :=
  fetchRetryGo fetch 1 max_retries

/-! ## FactUpdateThread day step (testing.cc lines 541-566)

One wake of the background thread: if the observed date differs from
`last_date`, run `FetchFactWithRetry(6, 10)`, publish the result into the
shared `current_fact` slot when the guard at lines 551-552 passes, and
record the date as handled. Returns
(a fetch sequence ran?, published fact, new last_date). -/

/-- The publish guard at testing.cc lines 551-552. -/
def factPublishGuard (new_fact : String) : Bool :=
  new_fact != emptyStr && new_fact != curlFailSentinel &&
    new_fact != parseFailSentinel && new_fact != missingFieldSentinel

def FactUpdateThreadStep (last_date current_fact current_date : String)
    (fetch : Nat → String) : Bool × String × String :=
  if current_date != last_date then
    let new_fact := (FetchFactWithRetry fetch 6).1
    let published := if factPublishGuard new_fact then new_fact else current_fact
    (true, published, current_date)
  else
    (false, current_fact, last_date)

/-- Iterated wakes of the thread over a list of observed dates; returns
(number of wakes that ran a fetch sequence, final fact, final last_date). -/
def FactUpdateThreadRun (last_date current_fact : String) (fetch : Nat → String) :
    List String → Nat × String × String
  | [] => (0, current_fact, last_date)
  | d :: rest =>
    let step := FactUpdateThreadStep last_date current_fact d fetch
    let tail := FactUpdateThreadRun step.2.2 step.2.1 fetch rest
    ((if step.1 then 1 else 0) + tail.1, tail.2.1, tail.2.2)

-- concrete inputs used below
def oldFactC1 : String := "Today\x27s fact: cats sleep a lot"

def dateJan1 : String := "2024-01-01"

def dateJan2 : String := "2024-01-02"

def alwaysCurlFail : Nat → String := fun _ => curlFailSentinel

/-! ## Composite animation frame counter
(testing.cc lines 794-795 / part_000 lines 119-120)

The render loop is `while (!interrupt_received) { for (size_t frame = 0;
frame < max_frames; ++frame) ... }` with
`max_frames = std::max(left_images.size(), right_images.size())`.
`animStep` is the value the loop variable takes at the next iteration;
`frameAt a b t` is its value at the t-th iteration overall. -/

def animStep (a b : Nat) (frame : Nat) : Nat :=
  if frame + 1 < max a b then frame + 1 else 0

def frameAt (a b : Nat) : Nat → Nat
  | 0 => 0
  | t + 1 => animStep a b (frameAt a b t)

/-- Index into the left source at overall iteration t
(testing.cc line 833: `left_images[frame % left_images.size()]`). -/
def leftIndexAt (a b t : Nat) : Nat := frameAt a b t % a

/-- Index into the right source at overall iteration t
(testing.cc line 835: `right_images[frame % right_images.size()]`). -/
def rightIndexAt (a b t : Nat) : Nat := frameAt a b t % b

/-! ## Per-frame delay (testing.cc lines 852-860)

`animationDelay()` is a size_t, modelled as Nat; the two sources are
modelled by their delay lists. The code is:
  int delay = 0;
  if (frame < left)  delay = left[frame].animationDelay();
  if (frame < right) { rd = right[frame].animationDelay();
                       delay = (delay > 0) ? (delay + rd) / 2 : rd; }
  if (delay <= 0) delay = 10; -/

def frameDelay (ld rd : List Nat) (f : Nat) : Nat :=
  let d1 := if f < ld.length then ld.getD f 0 else 0
  let d2 :=
    if f < rd.length then
      (if d1 > 0 then (d1 + rd.getD f 0) / 2 else rd.getD f 0)
    else d1
  if d2 ≤ 0 then 10 else d2

-- concrete delay lists used below
def ldMeanZero : List Nat := [0]

def rdMeanFour : List Nat := [4]

def exampleLeftDelays : List Nat := [10, 10, 10]

def exampleRightDelays : List Nat := [4, 4, 4, 4, 4]

/-! ## GetStringWidth and the ticker scroll state
(testing.cc lines 690-696, 735-739, 766-770)

`font.CharacterWidth((uint8_t)text[i])` is modelled by a function from the
byte value to an Int; the string is traversed byte by byte (UTF-8). -/

def GetStringWidth (charWidth : Nat → Int) (text : String) : Int :=
  ((text.data.flatMap (fun c => String.utf8EncodeChar c)).map
    (fun b => charWidth b.toNat)).sum

structure ScrollState where
  scroll_offset : Int
  fact_width : Int
  last_fact_text : String
deriving DecidableEq

/-- The fact-change check at the top of the render iteration
(testing.cc lines 735-739). -/
def scrollTextCheck (charWidth : Nat → Int) (st : ScrollState)
    (current_fact_text : String) : ScrollState :=
  if current_fact_text != st.last_fact_text then
    { last_fact_text := current_fact_text,
      fact_width := GetStringWidth charWidth current_fact_text,
      scroll_offset := MATRIX_WIDTH }
  else st

/-- The scroll update at the bottom of the render iteration
(testing.cc lines 766-770): `scroll_offset--;
if (scroll_offset < -fact_width) scroll_offset = MATRIX_WIDTH;`. -/
def scrollAdvance (st : ScrollState) : ScrollState :=
  let o := st.scroll_offset - 1
  if o < -st.fact_width then { st with scroll_offset := MATRIX_WIDTH }
  else { st with scroll_offset := o }

-- concrete scroll inputs used below
def sampleTickerText : String := "fact one"

def sampleTickerText2 : String := "fact two!"

def uniformWidth4 : Nat → Int := fun _ => 4

def sampleScrollState : ScrollState :=
  { scroll_offset := -32, fact_width := 32, last_fact_text := sampleTickerText }

/-! ## ContentCache (testing.cc lines 427-442 and 512-518)

The filesystem cache is modelled as a map from date key to the stored file
content (`none` = no file). `FetchOrLoadFactOfTheDay` first tries the cache:
a readable, non-empty file is returned directly; otherwise control falls
through to the network fetch. -/

inductive FactSource where
  | cached (text : String)
  | network
deriving DecidableEq

/-- The cache-probe prefix of `FetchOrLoadFactOfTheDay`
(testing.cc lines 433-442). -/
def fetchOrLoadCacheCheck (store : String → Option String) (today : String) :
    FactSource :=
  match store today with
  | some cached_fact =>
    if cached_fact != emptyStr then FactSource.cached cached_fact
    else FactSource.network
  | none => FactSource.network

/-- The cache write at the end of `FetchOrLoadFactOfTheDay`
(testing.cc lines 513-518): one file per date key, content the raw text. -/
def cachePut (store : String → Option String) (today text : String) :
    String → Option String :=
  fun k => if k = today then some text else store k

-- concrete cache inputs used below
def emptyStore : String → Option String := fun _ => none

def storedFactText : String := "Today\x27s fact: water is wet"

/-! ## Brightness re-check policy
(testing.cc lines 713-723 static path with interval 1800 s,
lines 798-807 animated path with interval 60 s) -/

structure BrightState where
  last_brightness_check : Int
  last_brightness : Int
deriving DecidableEq

def brightnessOf (dim : Bool) : Int := if dim then 10 else 100

/-- One iteration's brightness block: returns whether
`matrix->SetBrightness` was invoked, and the updated state. -/
def brightStep (interval : Int) (st : BrightState) (now : Int) (dim : Bool) :
    Bool × BrightState :=
  if interval ≤ now - st.last_brightness_check then
    let b := brightnessOf dim
    if b ≠ st.last_brightness then (true, { last_brightness_check := now, last_brightness := b })
    else (false, { last_brightness_check := now, last_brightness := st.last_brightness })
  else (false, st)

/-- The times at which `SetBrightness` is invoked over a trace of
(current time, dim decision) iterations. -/
def brightCalls (interval : Int) (st : BrightState) :
    List (Int × Bool) → List Int
  | [] => []
  | (now, dim) :: rest =>
    let step := brightStep interval st now dim
    if step.1 then now :: brightCalls interval step.2 rest
    else brightCalls interval step.2 rest

def STATIC_BRIGHTNESS_INTERVAL : Int := 1800

def ANIMATED_BRIGHTNESS_INTERVAL : Int := 60

-- concrete brightness inputs used below
def initialBrightState : BrightState :=
  { last_brightness_check := 0, last_brightness := -1 }

def sampleBrightTrace : List (Int × Bool) :=
  [(1800, true), (1801, false), (1802, true), (3650, false), (3700, true)]

/-! ## Font setup in the two variant mains
(testing.cc lines 910-923 fact variant; lines 280-288 weather variant).
`loads p` models `font.LoadFont(p)` succeeding. -/

def clockFontPath : String := "/opt/cats-display/fonts/5x7.bdf"

def factFontPath13 : String := "/opt/cats-display/fonts/6x13.bdf"

def factFontPath9 : String := "/opt/cats-display/fonts/6x9.bdf"

def factFontPath8 : String := "/opt/cats-display/fonts/5x8.bdf"

def weatherFontPath1 : String := "../fonts/4x6.bdf"

def weatherFontPath2 : String := "fonts/4x6.bdf"

def weatherFontPath3 : String := "/usr/share/fonts/misc/4x6.bdf"

inductive FontConfig where
  /-- `return 1` at testing.cc line 912. -/
  | abort
  /-- fact_font loaded from the given path. -/
  | useFactFont (path : String)
  /-- all fact-font paths failed; `fact_font_ptr = &font` (line 920). -/
  | useClockFontForFacts
deriving DecidableEq

/-- Font loading in the fact variant main (testing.cc lines 910-923). -/
def mainFontSetupFact (loads : String → Bool) : FontConfig :=
  if !loads clockFontPath then FontConfig.abort
  else if loads factFontPath13 then FontConfig.useFactFont factFontPath13
  else if loads factFontPath9 then FontConfig.useFactFont factFontPath9
  else if loads factFontPath8 then FontConfig.useFactFont factFontPath8
  else FontConfig.useClockFontForFacts

inductive WeatherFontConfig where
  | loadedFont (path : String)
  /-- all paths failed: "Could not load any font. Text will not display."
  and execution continues (testing.cc lines 285-287). -/
  | noFont
deriving DecidableEq

/-- Font loading in the weather variant main (testing.cc lines 280-288). -/
def mainFontSetupWeather (loads : String → Bool) : WeatherFontConfig :=
  if loads weatherFontPath1 then WeatherFontConfig.loadedFont weatherFontPath1
  else if loads weatherFontPath2 then WeatherFontConfig.loadedFont weatherFontPath2
  else if loads weatherFontPath3 then WeatherFontConfig.loadedFont weatherFontPath3
  else WeatherFontConfig.noFont

/-! ## CopyImageToCanvas, fact variant (testing.cc lines 619-633)

  for (size_t y = 0; y < image.rows() && y + offset_y < IMAGE_HEIGHT + IMAGE_Y; ++y)
    for (size_t x = 0; x < image.columns(); ++x)
      if (image.pixelColor(x,y).alphaQuantum() < 256)
        canvas->SetPixel(x + offset_x, y + offset_y, scaled r, g, b);

Both conjuncts of the outer guard are of the form `y < bound`, so the rows
the loop visits before its first guard failure are exactly the rows passing
both bounds; the embedding below collects the SetPixel calls issued.
`ScaleQuantumToChar` belongs to GraphicsMagick and is passed in abstractly. -/

structure MagickImage where
  rows : Nat
  columns : Nat
  alphaQuantum : Nat → Nat → Nat
  redQuantum : Nat → Nat → Nat
  greenQuantum : Nat → Nat → Nat
  blueQuantum : Nat → Nat → Nat

structure PixelWrite where
  x : Nat
  y : Nat
  r : Nat
  g : Nat
  b : Nat
deriving DecidableEq

def CopyImageToCanvas (scaleQ : Nat → Nat) (img : MagickImage)
    (offset_x offset_y : Nat) : List PixelWrite :=
  (List.range img.rows).flatMap (fun y =>
    if y + offset_y < IMAGE_HEIGHT + IMAGE_Y then
      (List.range img.columns).filterMap (fun x =>
        if img.alphaQuantum x y < 256 then
          some { x := x + offset_x, y := y + offset_y,
                 r := scaleQ (img.redQuantum x y),
                 g := scaleQ (img.greenQuantum x y),
                 b := scaleQ (img.blueQuantum x y) }
        else none)
    else [])

-- concrete image used below: 30 rows tall, 1 column, fully opaque-alpha-0
def tallSampleImage : MagickImage :=
  { rows := 30, columns := 1,
    alphaQuantum := fun _ _ => 0,
    redQuantum := fun _ _ => 7,
    greenQuantum := fun _ _ => 8,
    blueQuantum := fun _ _ => 9 }

/-- A fetch sequence whose second attempt yields a marked fact. -/
def succeedsOnSecond : Nat → String :=
  fun i => if i = 2 then storedFactText else curlFailSentinel

-- a write issued by `CopyImageToCanvas id tallSampleImage 0 IMAGE_Y`
def sampleWrite : PixelWrite := { x := 0, y := 1, r := 7, g := 8, b := 9 }

/-! # Theorems -/

/-! ## Helper lemmas -/

/-- The loop variable of the animated render loop equals the overall
iteration count modulo `max a b`. -/
theorem frameAt_eq_mod (a b : Nat) (ha : 0 < a) (t : Nat) :
    frameAt a b t = t % max a b := by
  have hm : 0 < max a b := lt_of_lt_of_le ha (le_max_left a b)
  induction t with
  | zero => simp [frameAt]
  | succ t ih =>
    have hr : t % max a b < max a b := Nat.mod_lt _ hm
    simp only [frameAt, animStep, ih]
    by_cases hlt : t % max a b + 1 < max a b
    · rw [if_pos hlt]
      have hm2 : 1 < max a b := by omega
      have step : (t + 1) % max a b = t % max a b + 1 :=
        calc (t + 1) % max a b = (t % max a b + 1 % max a b) % max a b :=
              Nat.add_mod t 1 (max a b)
          _ = (t % max a b + 1) % max a b := by rw [Nat.mod_eq_of_lt hm2]
          _ = t % max a b + 1 := Nat.mod_eq_of_lt hlt
      rw [step]
    · rw [if_neg hlt]
      rcases Nat.eq_or_lt_of_le hm with h1 | h1
      · rw [← h1]
        simp [Nat.mod_one]
      · have h1m : 1 % max a b = 1 := Nat.mod_eq_of_lt h1
        have hsum : t % max a b + 1 = max a b := by omega
        rw [Nat.add_mod, h1m, hsum, Nat.mod_self]

/-- `fetchRetryGo` with every in-range attempt failing the mark check
returns the sentinel after exactly `remaining` attempts. -/
theorem fetchRetryGo_all_fail (fetch : Nat → String) :
    ∀ (remaining start : Nat),
      (∀ i, start ≤ i → i < start + remaining → factHasMark (fetch i) = false) →
      fetchRetryGo fetch start remaining = (retrySentinel, remaining) := by
  intro remaining
  induction remaining with
  | zero => intro start _; rfl
  | succ r ih =>
    intro start h
    have h0 : factHasMark (fetch start) = false := h start le_rfl (by omega)
    simp only [fetchRetryGo, h0, Bool.false_eq_true, if_false]
    rw [ih (start + 1) (fun i h1 h2 => h i (by omega) (by omega))]

/-- `fetchRetryGo` returns the first marked result, after exactly as many
attempts as its position. -/
theorem fetchRetryGo_first_success (fetch : Nat → String) :
    ∀ (remaining start i : Nat), start ≤ i → i < start + remaining →
      factHasMark (fetch i) = true →
      (∀ j, start ≤ j → j < i → factHasMark (fetch j) = false) →
      fetchRetryGo fetch start remaining = (fetch i, i + 1 - start) := by
  intro remaining
  induction remaining with
  | zero => intro start i h1 h2 _ _; omega
  | succ r ih =>
    intro start i h1 h2 hs hmin
    by_cases hst : i = start
    · subst hst
      simp only [fetchRetryGo, hs, if_true]
      have : i + 1 - i = 1 := by omega
      rw [this]
    · have h0 : factHasMark (fetch start) = false := hmin start le_rfl (by omega)
      simp only [fetchRetryGo, h0, Bool.false_eq_true, if_false]
      rw [ih (start + 1) i (by omega) (by omega) hs
        (fun j hj1 hj2 => hmin j (by omega) hj2)]
      have : i + 1 - (start + 1) + 1 = i + 1 - start := by omega
      rw [this]

/-! ## Claim theorems -/

/-- C1 (code bug evidence): at the failing input — a previously published
valid fact and a fetch that fails on all 6 attempts — `FactUpdateThread`'s
day step publishes the retry-exhaustion sentinel
"Could not fetch fact after retries" into the shared content slot,
overwriting the previous value, because the guard at testing.cc lines
551-552 only filters the three inner sentinels that `FetchFactWithRetry`
can never return. -/
theorem factUpdate_publishes_retry_sentinel :
    FactUpdateThreadStep dateJan1 oldFactC1 dateJan2 alwaysCurlFail
      = (true, retrySentinel, dateJan2) ∧ retrySentinel ≠ oldFactC1 := by
  decide

/-- C2 (counterexample): with sources of lengths 3 and 5, at overall
iteration 5 the left source shows frame 0, not 5 mod 3 = 2 — the loop
variable wraps at max(a,b) = 5, so the source-local index is not
`f mod length` for an unbounded counter `f`. -/
theorem composite_frame_lcm_counterexample : leftIndexAt 3 5 5 ≠ 5 % 3 := by
  decide

/-- C2 (amended): the composite loop's frame counter wraps at `max a b`;
at overall iteration t each source displays frame `(t % max a b) % length`,
and both sources are simultaneously back at index 0 at t = max a b. -/
theorem composite_frame_wraps_at_max (a b t : Nat) (ha : 0 < a) (_hb : 0 < b) :
    leftIndexAt a b t = t % max a b % a ∧
    rightIndexAt a b t = t % max a b % b ∧
    leftIndexAt a b (max a b) = 0 ∧ rightIndexAt a b (max a b) = 0 := by
  have h := frameAt_eq_mod a b ha t
  have h2 := frameAt_eq_mod a b ha (max a b)
  refine ⟨by rw [leftIndexAt, h], by rw [rightIndexAt, h], ?_, ?_⟩
  · rw [leftIndexAt, h2, Nat.mod_self, Nat.zero_mod]
  · rw [rightIndexAt, h2, Nat.mod_self, Nat.zero_mod]

theorem composite_frame_wraps_at_max_witness :
    leftIndexAt 3 5 7 = 7 % max 3 5 % 3 ∧
    rightIndexAt 3 5 7 = 7 % max 3 5 % 5 ∧
    leftIndexAt 3 5 (max 3 5) = 0 ∧ rightIndexAt 3 5 (max 3 5) = 0 :=
  composite_frame_wraps_at_max 3 5 7 (by decide) (by decide)

/-- C3 (counterexample): at f = 0 with both sources in range (lengths 1
and 1) and delays 0 and 4, the code yields 4 (the right delay alone), not
the truncated mean (0 + 4) / 2 = 2, because the mean branch also requires
the left delay to be positive. -/
theorem frameDelay_mean_counterexample :
    frameDelay ldMeanZero rdMeanFour 0 = 4 ∧
    (ldMeanZero.getD 0 0 + rdMeanFour.getD 0 0) / 2 = 2 := by decide

/-- C3 (amended): the effective delay is the truncated mean of the two
delays only when f is within both native frame counts and the left delay
is positive (with the default 10 substituted if the mean is 0); when f is
within both counts but the left delay is 0, the right delay alone is used;
when only one count exceeds f, that source's delay is used; whenever the
resulting value is not positive the default 10 (100 ms) applies. The
spec's example (lengths 3 and 5, delays [10,10,10] and [4,4,4,4,4]) still
gives 7 at f = 0..2 and 4 at f = 3, 4. -/
theorem frameDelay_policy (ld rd : List Nat) (f : Nat) :
    (f < ld.length → f < rd.length → 0 < ld.getD f 0 →
      frameDelay ld rd f =
        (if (ld.getD f 0 + rd.getD f 0) / 2 = 0 then 10
         else (ld.getD f 0 + rd.getD f 0) / 2)) ∧
    (f < ld.length → f < rd.length → ld.getD f 0 = 0 →
      frameDelay ld rd f = (if rd.getD f 0 = 0 then 10 else rd.getD f 0)) ∧
    (f < ld.length → ¬f < rd.length →
      frameDelay ld rd f = (if ld.getD f 0 = 0 then 10 else ld.getD f 0)) ∧
    (¬f < ld.length → f < rd.length →
      frameDelay ld rd f = (if rd.getD f 0 = 0 then 10 else rd.getD f 0)) ∧
    (¬f < ld.length → ¬f < rd.length → frameDelay ld rd f = 10) ∧
    frameDelay exampleLeftDelays exampleRightDelays 0 = 7 ∧
    frameDelay exampleLeftDelays exampleRightDelays 1 = 7 ∧
    frameDelay exampleLeftDelays exampleRightDelays 2 = 7 ∧
    frameDelay exampleLeftDelays exampleRightDelays 3 = 4 ∧
    frameDelay exampleLeftDelays exampleRightDelays 4 = 4 := by
  refine ⟨?_, ?_, ?_, ?_, ?_, by decide, by decide, by decide, by decide,
    by decide⟩ <;>
    (intro h1 h2
     try intro h3) <;>
    (simp only [frameDelay]
     split_ifs <;> omega)

theorem frameDelay_policy_witness :
    frameDelay exampleLeftDelays exampleRightDelays 1 =
      (if (exampleLeftDelays.getD 1 0 + exampleRightDelays.getD 1 0) / 2 = 0
       then 10
       else (exampleLeftDelays.getD 1 0 + exampleRightDelays.getD 1 0) / 2) ∧
    frameDelay exampleLeftDelays exampleRightDelays 3 =
      (if exampleRightDelays.getD 3 0 = 0 then 10
       else exampleRightDelays.getD 3 0) :=
  ⟨(frameDelay_policy exampleLeftDelays exampleRightDelays 1).1
      (by decide) (by decide) (by decide),
   (frameDelay_policy exampleLeftDelays exampleRightDelays 3).2.2.2.1
      (by decide) (by decide)⟩

/-- C5: with every attempt up to n unmarked, `FetchFactWithRetry` performs
exactly n attempts and returns the sentinel (its result is a total value,
no error is raised); the first marked attempt i is returned immediately
after exactly i attempts. -/
theorem FetchFactWithRetry_policy (fetch : Nat → String) (n : Nat) :
    ((∀ i, 1 ≤ i → i ≤ n → factHasMark (fetch i) = false) →
      FetchFactWithRetry fetch n = (retrySentinel, n)) ∧
    (∀ i, 1 ≤ i → i ≤ n → factHasMark (fetch i) = true →
      (∀ j, 1 ≤ j → j < i → factHasMark (fetch j) = false) →
      FetchFactWithRetry fetch n = (fetch i, i)) := by
  constructor
  · intro h
    exact fetchRetryGo_all_fail fetch n 1 (fun i h1 h2 => h i h1 (by omega))
  · intro i h1 h2 hs hmin
    rw [FetchFactWithRetry,
      fetchRetryGo_first_success fetch n 1 i h1 (by omega) hs hmin]
    have : i + 1 - 1 = i := by omega
    rw [this]

theorem FetchFactWithRetry_policy_witness :
    FetchFactWithRetry alwaysCurlFail 3 = (retrySentinel, 3) ∧
    FetchFactWithRetry succeedsOnSecond 3 = (succeedsOnSecond 2, 2) :=
  ⟨(FetchFactWithRetry_policy alwaysCurlFail 3).1
      (fun i _ _ => show factHasMark curlFailSentinel = false by decide),
   (FetchFactWithRetry_policy succeedsOnSecond 3).2 2 (by decide) (by decide)
      (by decide)
      (fun j hj1 hj2 => by interval_cases j <;> decide)⟩

/-- C4: in each render iteration the scroll offset decreases by exactly 1,
resets to MATRIX_WIDTH exactly when the decremented value falls below
`-fact_width`, and an observed ticker text different from the previous one
resets the offset to MATRIX_WIDTH and recomputes the width, regardless of
the prior offset. -/
theorem scrollState_invariant (charWidth : Nat → Int) (st : ScrollState)
    (current : String) :
    ((scrollTextCheck charWidth st current).last_fact_text = current ∧
     (current ≠ st.last_fact_text →
       (scrollTextCheck charWidth st current).scroll_offset = MATRIX_WIDTH ∧
       (scrollTextCheck charWidth st current).fact_width =
         GetStringWidth charWidth current)) ∧
    (-st.fact_width ≤ st.scroll_offset - 1 →
      (scrollAdvance st).scroll_offset = st.scroll_offset - 1) ∧
    (st.scroll_offset - 1 < -st.fact_width →
      (scrollAdvance st).scroll_offset = MATRIX_WIDTH) := by
  refine ⟨⟨?_, ?_⟩, ?_, ?_⟩
  · rcases eq_or_ne current st.last_fact_text with h | h <;>
      simp [scrollTextCheck, bne_iff_ne, h]
  · intro h
    simp [scrollTextCheck, bne_iff_ne, h]
  · intro h
    rw [scrollAdvance, if_neg (by omega)]
  · intro h
    rw [scrollAdvance, if_pos (by omega)]

theorem scrollState_invariant_witness :
    ((scrollTextCheck uniformWidth4 sampleScrollState
        sampleTickerText2).scroll_offset = MATRIX_WIDTH ∧
     (scrollTextCheck uniformWidth4 sampleScrollState
        sampleTickerText2).fact_width =
       GetStringWidth uniformWidth4 sampleTickerText2) ∧
    (scrollAdvance sampleScrollState).scroll_offset = MATRIX_WIDTH :=
  ⟨(scrollState_invariant uniformWidth4 sampleScrollState
      sampleTickerText2).1.2 (by decide),
   (scrollState_invariant uniformWidth4 sampleScrollState
      sampleTickerText2).2.2 (by decide)⟩

/-- C6: a missing or empty cache file is a miss that falls through to the
network fetch; after writing a non-empty text for a date key, a later probe
of the same key returns exactly the stored text without reaching the
network path. -/
theorem contentCache_roundtrip (store : String → Option String)
    (k t : String) :
    (store k = none → fetchOrLoadCacheCheck store k = FactSource.network) ∧
    (store k = some emptyStr →
      fetchOrLoadCacheCheck store k = FactSource.network) ∧
    (t ≠ emptyStr →
      fetchOrLoadCacheCheck (cachePut store k t) k = FactSource.cached t) := by
  refine ⟨?_, ?_, ?_⟩
  · intro h
    simp [fetchOrLoadCacheCheck, h]
  · intro h
    simp [fetchOrLoadCacheCheck, h]
  · intro h
    simp [fetchOrLoadCacheCheck, cachePut, bne_iff_ne, h]

theorem contentCache_roundtrip_witness :
    fetchOrLoadCacheCheck emptyStore dateJan1 = FactSource.network ∧
    fetchOrLoadCacheCheck (cachePut emptyStore dateJan1 storedFactText)
      dateJan1 = FactSource.cached storedFactText :=
  ⟨(contentCache_roundtrip emptyStore dateJan1 storedFactText).1 rfl,
   (contentCache_roundtrip emptyStore dateJan1 storedFactText).2.2
      (by decide)⟩

theorem brightStep_called {interval now : Int} {st : BrightState} {dim : Bool}
    (hI : interval ≤ now - st.last_brightness_check)
    (hB : brightnessOf dim ≠ st.last_brightness) :
    brightStep interval st now dim =
      (true, { last_brightness_check := now,
               last_brightness := brightnessOf dim }) := by
  simp [brightStep, hI, hB]

theorem brightStep_same {interval now : Int} {st : BrightState} {dim : Bool}
    (hI : interval ≤ now - st.last_brightness_check)
    (hB : brightnessOf dim = st.last_brightness) :
    brightStep interval st now dim =
      (false, { last_brightness_check := now,
                last_brightness := st.last_brightness }) := by
  simp [brightStep, hI, hB]

theorem brightStep_early {interval now : Int} {st : BrightState} {dim : Bool}
    (hI : ¬interval ≤ now - st.last_brightness_check) :
    brightStep interval st now dim = (false, st) := by
  simp [brightStep, hI]

theorem chain'_le_of_le {a b : Int} {l : List Int} (hba : b ≤ a)
    (h : List.Chain' (· ≤ ·) (a :: l)) : List.Chain' (· ≤ ·) (b :: l) := by
  rcases l with _ | ⟨c, l⟩
  · simp
  · rw [List.chain'_cons] at h ⊢
    exact ⟨le_trans hba h.1, h.2⟩

theorem chain'_gap_of_le {i a b : Int} {l : List Int} (hba : b ≤ a)
    (h : List.Chain' (fun t1 t2 => t1 + i ≤ t2) (a :: l)) :
    List.Chain' (fun t1 t2 => t1 + i ≤ t2) (b :: l) := by
  rcases l with _ | ⟨c, l⟩
  · simp
  · rw [List.chain'_cons] at h ⊢
    have h1 := h.1
    exact ⟨by omega, h.2⟩

/-- Along any trace with nondecreasing clock readings, successive
`SetBrightness` invocations are at least `interval` apart (with the state's
`last_brightness_check` prefixed as the baseline). -/
theorem brightCalls_gap (interval : Int) :
    ∀ (trace : List (Int × Bool)) (st : BrightState),
      List.Chain' (· ≤ ·)
        (st.last_brightness_check :: trace.map Prod.fst) →
      List.Chain' (fun t1 t2 => t1 + interval ≤ t2)
        (st.last_brightness_check :: brightCalls interval st trace) := by
  intro trace
  induction trace with
  | nil =>
    intro st _
    simp [brightCalls]
  | cons p rest ih =>
    intro st h
    obtain ⟨now, dim⟩ := p
    rw [List.map_cons, List.chain'_cons] at h
    by_cases hI : interval ≤ now - st.last_brightness_check
    · by_cases hB : brightnessOf dim ≠ st.last_brightness
      · rw [brightCalls, brightStep_called hI hB]
        simp only [if_true]
        rw [List.chain'_cons]
        refine ⟨by omega, ?_⟩
        exact ih { last_brightness_check := now,
                   last_brightness := brightnessOf dim } h.2
      · rw [ne_eq, not_not] at hB
        rw [brightCalls, brightStep_same hI hB]
        simp only [Bool.false_eq_true, if_false]
        exact chain'_gap_of_le h.1
          (ih { last_brightness_check := now,
                last_brightness := st.last_brightness } h.2)
    · rw [brightCalls, brightStep_early hI]
      simp only [Bool.false_eq_true, if_false]
      exact ih st (chain'_le_of_le h.1 h.2)

/-- C7: `SetBrightness` is invoked in an iteration only when the re-check
interval has elapsed since `last_brightness_check` and the newly computed
brightness differs from the last applied one; consequently, over any trace
of iterations with nondecreasing clock readings — even with the dim
decision toggling every iteration — successive invocations are at least
the configured interval apart (1800 s in the static path, 60 s in the
animated path, both instances of the same block). -/
theorem brightness_policy (interval : Int) (st : BrightState) (now : Int)
    (dim : Bool) (trace : List (Int × Bool)) :
    ((brightStep interval st now dim).1 = true →
      interval ≤ now - st.last_brightness_check ∧
      brightnessOf dim ≠ st.last_brightness) ∧
    (List.Chain' (· ≤ ·)
        (st.last_brightness_check :: trace.map Prod.fst) →
      List.Chain' (fun t1 t2 => t1 + interval ≤ t2)
        (st.last_brightness_check :: brightCalls interval st trace)) := by
  constructor
  · intro h
    by_cases hI : interval ≤ now - st.last_brightness_check
    · by_cases hB : brightnessOf dim ≠ st.last_brightness
      · exact ⟨hI, hB⟩
      · rw [ne_eq, not_not] at hB
        rw [brightStep_same hI hB] at h
        simp at h
    · rw [brightStep_early hI] at h
      simp at h
  · exact brightCalls_gap interval trace st

theorem brightness_policy_witness :
    List.Chain' (fun t1 t2 => t1 + STATIC_BRIGHTNESS_INTERVAL ≤ t2)
      (initialBrightState.last_brightness_check ::
        brightCalls STATIC_BRIGHTNESS_INTERVAL initialBrightState
          sampleBrightTrace) ∧
    (STATIC_BRIGHTNESS_INTERVAL ≤
        1800 - initialBrightState.last_brightness_check ∧
      brightnessOf true ≠ initialBrightState.last_brightness) :=
  ⟨(brightness_policy STATIC_BRIGHTNESS_INTERVAL initialBrightState 1800
      true sampleBrightTrace).2
      (by norm_num [sampleBrightTrace, initialBrightState,
        List.chain'_cons, List.chain'_singleton]),
   (brightness_policy STATIC_BRIGHTNESS_INTERVAL initialBrightState 1800
      true sampleBrightTrace).1 (by decide)⟩

/-- C8 (counterexample): when no font path loads, the fact variant's main
aborts with exit code 1 (testing.cc line 912) — a font failure does abort
the program, contrary to the claim. -/
theorem fontSetup_abort_counterexample :
    mainFontSetupFact (fun _ => false) = FontConfig.abort := by decide

/-- C8 (amended): the weather variant degrades through the ordered paths
../fonts/4x6.bdf, fonts/4x6.bdf, /usr/share/fonts/misc/4x6.bdf and, if all
fail, continues with text rendering skipped. The fact variant aborts with
exit code 1 exactly when the clock font 5x7.bdf fails to load; its fact
font degrades through 6x13 → 6x9 → 5x8 and finally falls back to the clock
font (text still rendered), never aborting once the clock font loaded. -/
theorem fontSetup_policy (loads : String → Bool) :
    (loads clockFontPath = false →
      mainFontSetupFact loads = FontConfig.abort) ∧
    (loads clockFontPath = true →
      mainFontSetupFact loads ≠ FontConfig.abort) ∧
    (loads clockFontPath = true → loads factFontPath13 = false →
      loads factFontPath9 = false → loads factFontPath8 = false →
      mainFontSetupFact loads = FontConfig.useClockFontForFacts) ∧
    (loads weatherFontPath1 = true →
      mainFontSetupWeather loads =
        WeatherFontConfig.loadedFont weatherFontPath1) ∧
    (loads weatherFontPath1 = false → loads weatherFontPath2 = true →
      mainFontSetupWeather loads =
        WeatherFontConfig.loadedFont weatherFontPath2) ∧
    (loads weatherFontPath1 = false → loads weatherFontPath2 = false →
      loads weatherFontPath3 = true →
      mainFontSetupWeather loads =
        WeatherFontConfig.loadedFont weatherFontPath3) ∧
    (loads weatherFontPath1 = false → loads weatherFontPath2 = false →
      loads weatherFontPath3 = false →
      mainFontSetupWeather loads = WeatherFontConfig.noFont) := by
  refine ⟨?_, ?_, ?_, ?_, ?_, ?_, ?_⟩
  · intro h1
    simp [mainFontSetupFact, h1]
  · intro h1
    simp only [mainFontSetupFact, h1, Bool.not_true, Bool.false_eq_true,
      if_false]
    split_ifs <;> simp
  · intro h1 h2 h3 h4
    simp [mainFontSetupFact, h1, h2, h3, h4]
  · intro h1
    simp [mainFontSetupWeather, h1]
  · intro h1 h2
    simp [mainFontSetupWeather, h1, h2]
  · intro h1 h2 h3
    simp [mainFontSetupWeather, h1, h2, h3]
  · intro h1 h2 h3
    simp [mainFontSetupWeather, h1, h2, h3]

theorem fontSetup_policy_witness :
    mainFontSetupWeather (fun _ => false) = WeatherFontConfig.noFont ∧
    mainFontSetupFact (fun _ => true) ≠ FontConfig.abort :=
  ⟨(fontSetup_policy (fun _ => false)).2.2.2.2.2.2 rfl rfl rfl,
   (fontSetup_policy (fun _ => true)).2.1 rfl⟩

/-- Further wakes of the fact thread within the same observed date neither
fetch nor disturb the recorded date. -/
theorem factRun_same_day (fetch : Nat → String) (d : String) :
    ∀ (n : Nat) (cf : String),
      FactUpdateThreadRun d cf fetch (List.replicate n d) = (0, cf, d) := by
  intro n
  induction n with
  | zero => intro cf; rfl
  | succ m ih =>
    intro cf
    simp only [List.replicate, FactUpdateThreadRun, FactUpdateThreadStep,
      bne_self_eq_false, Bool.false_eq_true, if_false]
    rw [ih cf]
    simp

/-- C9: a wake that observes a new local date runs exactly one fetch
sequence (whatever its outcome — the fetch function is arbitrary, so this
covers both a marked fact and the retry-exhaustion sentinel), records the
date as handled, and every further wake observing the same date runs no
fetch at all. -/
theorem factThread_day_handled_once (last cf : String)
    (fetch : Nat → String) (d : String) (n : Nat) (hneq : d ≠ last) :
    (FactUpdateThreadRun last cf fetch (d :: List.replicate n d)).1 = 1 ∧
    (FactUpdateThreadRun last cf fetch (d :: List.replicate n d)).2.2 = d := by
  have hstep : FactUpdateThreadStep last cf d fetch =
      (true,
        (if factPublishGuard (FetchFactWithRetry fetch 6).1
         then (FetchFactWithRetry fetch 6).1 else cf), d) := by
    simp [FactUpdateThreadStep, bne_iff_ne, hneq]
  simp only [FactUpdateThreadRun, hstep]
  rw [factRun_same_day]
  simp

theorem factThread_day_handled_once_witness :
    (FactUpdateThreadRun dateJan1 oldFactC1 alwaysCurlFail
        (dateJan2 :: List.replicate 3 dateJan2)).1 = 1 ∧
    (FactUpdateThreadRun dateJan1 oldFactC1 alwaysCurlFail
        (dateJan2 :: List.replicate 3 dateJan2)).2.2 = dateJan2 :=
  factThread_day_handled_once dateJan1 oldFactC1 alwaysCurlFail dateJan2 3
    (by decide)

/-- C10: every pixel written by the fact variant's `CopyImageToCanvas` has
row index strictly below IMAGE_Y + IMAGE_HEIGHT = 22, for every source
image, every column offset and every row offset — the lower band including
the ticker rows is never touched. -/
theorem copyImage_rows_bounded (scaleQ : Nat → Nat) (img : MagickImage)
    (offset_x offset_y : Nat) (w : PixelWrite)
    (hw : w ∈ CopyImageToCanvas scaleQ img offset_x offset_y) :
    w.y < IMAGE_Y + IMAGE_HEIGHT := by
  simp only [CopyImageToCanvas, List.mem_flatMap] at hw
  obtain ⟨y, _, hmem⟩ := hw
  by_cases hb : y + offset_y < IMAGE_HEIGHT + IMAGE_Y
  · rw [if_pos hb] at hmem
    simp only [List.mem_filterMap] at hmem
    obtain ⟨x, _, hsome⟩ := hmem
    by_cases ha : img.alphaQuantum x y < 256
    · rw [if_pos ha] at hsome
      have hww := Option.some.inj hsome
      have hwy : w.y = y + offset_y := by rw [← hww]
      rw [hwy]
      simp only [IMAGE_HEIGHT, IMAGE_Y] at hb ⊢
      omega
    · rw [if_neg ha] at hsome
      cases hsome
  · rw [if_neg hb] at hmem
    simp at hmem

theorem copyImage_rows_bounded_witness :
    sampleWrite.y < IMAGE_Y + IMAGE_HEIGHT :=
  copyImage_rows_bounded id tallSampleImage 0 IMAGE_Y sampleWrite (by decide)
